import Mathlib

/-!
Shallow embedding of the core logic of `gempa_dash.py` (Seismie):
the province classifier (`detect_province_fast` and its fallback), the
filter helper (`filter_data`) together with the module-level constants it
reads (`top_province`, `min_year_data`, `max_year_data`, ...), and the
CSV download callback (`download_filtered_data`).

Python floats that may be NaN/missing (latitude, longitude, the year
inputs) are embedded as `Option ℚ` with `none` playing the role of
NaN/None; `pd.isna` is the `none` test and a NaN comparison is `false`.
Python exceptions (subscripting a missing or too-short `mag_range`)
are embedded as `Except String`.  The haversine metric computed by the
BallTree is a third-party numeric routine; the classifier is therefore
parametrised over the distance function `dist lat lon cityLat cityLng`,
while everything in the source file itself (the NaN guard, the nearest
neighbour selection, the `dist * 6371 < 150` threshold, the label
post-processing) is embedded concretely.
-/

namespace Seismie

/-- A pandas timestamp, split as the year (`df["time"].dt.year`) and the
position within the year, ordered lexicographically. -/
structure Timestamp where
  year : Int
  sub : Rat
deriving DecidableEq, Repr

/-- Boolean order on timestamps: earlier-or-equal. -/
def Timestamp.le (a b : Timestamp) : Bool :=
  a.year < b.year || (a.year = b.year && a.sub ≤ b.sub)

/-- One row of the loaded data frame `df`, after the derived `province`
column (and the `cluster` column) have been added at load time. -/
structure Record where
  time : Timestamp
  latitude : Option Rat
  longitude : Option Rat
  depth : Rat
  magnitude : Rat
  place : String
  cluster : Int
  province : String
deriving DecidableEq, Repr

/-- One row of the reference table `worldcities.csv` restricted to
`country == "Indonesia"`. -/
structure RefCity where
  city : String
  country : String
  lat : Rat
  lng : Rat
  admin_name : String
deriving DecidableEq, Repr

/-- The sentinel label the code produces for unclassified records
(the spec calls it "Other"; the literal string is "Lainnya"). -/
def sentinel : String := "Lainnya"

/-- Left-to-right, non-overlapping replacement of a non-empty pattern in a
character list (the semantics of Python's `str.replace`), with fuel for
structural termination; fuel equal to the input length always suffices
because every step consumes at least one character. -/
def replaceAux (pat rep : List Char) : Nat → List Char → List Char
  | 0, l => l
  | _ + 1, [] => []
  | fuel + 1, c :: rest =>
      if pat ≠ [] && pat.isPrefixOf (c :: rest) then
        rep ++ replaceAux pat rep fuel (List.drop (pat.length - 1) rest)
      else c :: replaceAux pat rep fuel rest

/-- Embedding of Python's `s.replace(pat, rep)`. -/
def pyReplace (s pat rep : String) : String :=
  ⟨replaceAux pat.data rep.data s.data.length s.data⟩

/-- Embedding of Python's `s.strip()`: leading and trailing whitespace
removed. -/
def pyStrip (s : String) : String :=
  ⟨((s.data.dropWhile Char.isWhitespace).reverse.dropWhile Char.isWhitespace).reverse⟩

/-- The label derived from a reference city:
`str(nearest["admin_name"]).replace("Province", "").strip()`. -/
def provinceLabel (c : RefCity) : String :=
  pyStrip (pyReplace c.admin_name "Province" "")

/-- The 1-nearest-neighbour query `tree.query(..., k=1)` over the
reference set `c :: cs` (the BallTree is built from a non-empty set):
the city minimising `dist`, the earliest one on ties. -/
def nearestCity (dist : Rat → Rat → Rat → Rat → Rat) (la lo : Rat)
    (c : RefCity) (cs : List RefCity) : RefCity :=
  cs.foldl (fun best x =>
    if dist la lo x.lat x.lng < dist la lo best.lat best.lng then x else best) c

/-- Embedding of `detect_province_fast(lat, lon)`: NaN input short-circuits
to the sentinel; otherwise the nearest reference city is looked up and its
label returned when `dist * 6371 < 150`, the sentinel otherwise. -/
def detect_province_fast (dist : Rat → Rat → Rat → Rat → Rat)
    (c : RefCity) (cs : List RefCity) (lat lon : Option Rat) : String :=
  match lat, lon with
  | some la, some lo =>
      let nearest := nearestCity dist la lo c cs
      if dist la lo nearest.lat nearest.lng * 6371 < 150 then
        provinceLabel nearest
      else sentinel
  | _, _ => sentinel

/-- NaN-aware `<` of Python: a comparison with NaN/None is `false`. -/
def nanLt (a : Option Rat) (b : Rat) : Bool :=
  match a with
  | some x => x < b
  | none => false

/-- NaN-aware `>` of Python: a comparison with NaN/None is `false`. -/
def nanGt (a : Option Rat) (b : Rat) : Bool :=
  match a with
  | some x => b < x
  | none => false

/-- Embedding of `detect_province_fast_fallback(lat, lon)`, the degraded
classifier used when `worldcities.csv` is missing. -/
def detect_province_fast_fallback (lat lon : Option Rat) : String :=
  if nanLt lat (-5) && nanLt lon 110 then "Sumatera/Jawa Barat"
  else if nanGt lat (-1) && nanGt lon 120 then "Sulawesi/Maluku"
  else sentinel

/-- Embedding of `df["province"] = df.apply(lambda r: detect_province_fast
(r["latitude"], r["longitude"]), axis=1)`. -/
def tagRecords (dist : Rat → Rat → Rat → Rat → Rat)
    (c : RefCity) (cs : List RefCity) (df : List Record) : List Record :=
  df.map (fun r =>
    { r with province := detect_province_fast dist c cs r.latitude r.longitude })

/-- Embedding of pandas `unique().tolist()`: first occurrences, in order. -/
def uniqueList (l : List String) : List String :=
  l.foldl (fun acc x => if x ∈ acc then acc else acc ++ [x]) []

/-- Number of rows of `df` carrying province `p` (one bar of
`value_counts()`). -/
def countProv (df : List Record) (p : String) : Nat :=
  (df.filter (fun r => r.province = p)).length

/-- Embedding of `df[df["province"] != "Lainnya"]["province"].unique()`. -/
def valid_provinces (df : List Record) : List String :=
  uniqueList ((df.filter (fun r => r.province ≠ sentinel)).map (fun r => r.province))

/-- Scan keeping the earliest province of maximal count (the behaviour of
`value_counts().idxmax()`: the first index attaining the maximum). -/
def argmaxCount (df : List Record) : List String → String → String
  | [], best => best
  | p :: rest, best =>
      argmaxCount df rest (if countProv df best < countProv df p then p else best)

/-- Embedding of the module constant `top_province`: the most frequent
non-sentinel province when one exists, the sentinel otherwise. -/
def top_province (df : List Record) : String :=
  match valid_provinces df with
  | [] => sentinel
  | p :: rest => argmaxCount df rest p

/-- Embedding of the module constant `min_year_data`. -/
def min_year_data : List Record → Int
  | [] => 0
  | r :: rest => rest.foldl (fun m x => min m x.time.year) r.time.year

/-- Embedding of the module constant `max_year_data`. -/
def max_year_data : List Record → Int
  | [] => 0
  | r :: rest => rest.foldl (fun m x => max m x.time.year) r.time.year

/-- Embedding of the module constant `min_mag_data`. -/
def min_mag_data : List Record → Rat
  | [] => 0
  | r :: rest => rest.foldl (fun m x => min m x.magnitude) r.magnitude

/-- Embedding of the module constant `max_mag_data`. -/
def max_mag_data : List Record → Rat
  | [] => 0
  | r :: rest => rest.foldl (fun m x => max m x.magnitude) r.magnitude

/-- Step 1 of `filter_data`: the resolved province list.  An empty (or
None) input defaults to `[top_province]` unless `top_province` is the
sentinel, in which case it defaults to `df["province"].unique().tolist()`. -/
def resolveProvinces (df : List Record) (provinces_input : List String) : List String :=
  if provinces_input = [] then
    if top_province df ≠ sentinel then [top_province df]
    else uniqueList (df.map (fun r => r.province))
  else provinces_input

/-- Descending insertion by `time` (helper for the `sort_values` step). -/
def insertDesc (r : Record) : List Record → List Record
  | [] => [r]
  | x :: xs => if Timestamp.le x.time r.time then r :: x :: xs else x :: insertDesc r xs

/-- Embedding of `.sort_values("time", ascending=False)`: a deterministic
sort producing a permutation ordered by time descending. -/
def sortByTimeDesc : List Record → List Record
  | [] => []
  | r :: rs => insertDesc r (sortByTimeDesc rs)

/-- Step 2 of `filter_data`: the year predicate.  An explicit non-empty
year list wins; else a (start, end) pair passing the validity check
`start_year >= min_year_data and end_year <= max_year_data and
start_year <= end_year` is used; else the default window
`between(max_year_data - 4, max_year_data)`. -/
def yearFilter (df : List Record) (years : List Int)
    (start_year end_year : Option Int) (r : Record) : Bool :=
  let defaultWindow : Bool :=
    max_year_data df - 4 ≤ r.time.year && r.time.year ≤ max_year_data df
  if years.length > 0 then years.contains r.time.year
  else
    match start_year, end_year with
    | some s, some e =>
        if min_year_data df ≤ s && e ≤ max_year_data df && s ≤ e then
          s ≤ r.time.year && r.time.year ≤ e
        else defaultWindow
    | _, _ => defaultWindow

/-- Embedding of `filter_data(provinces_input, mag_range, years,
start_year, end_year)`.  The function body contains no exception handler:
subscripting `mag_range` when it is None (`none`) or shorter than two
elements raises, embedded as `Except.error`; otherwise the magnitude
`between`, the year predicate and the province membership are conjoined
and the result sorted by time descending. -/
def filter_data (df : List Record) (provinces_input : List String)
    (mag_range : Option (List Rat)) (years : List Int)
    (start_year end_year : Option Int) :
    Except String (List Record × List String) :=
  let provinces := resolveProvinces df provinces_input
  match mag_range with
  | none => Except.error "TypeError: mag_range is None"
  | some [] => Except.error "IndexError: mag_range[0]"
  | some [_] => Except.error "IndexError: mag_range[1]"
  | some (lo :: hi :: _) =>
      let dff := df.filter (fun r =>
        (lo ≤ r.magnitude && r.magnitude ≤ hi)
        && yearFilter df years start_year end_year r
        && provinces.contains r.province)
      Except.ok (sortByTimeDesc dff, provinces)

/-- The column set of the tabular input source. -/
def inputColumns : List String :=
  ["time", "latitude", "longitude", "depth", "magnitude", "place"]

/-- The column set of the loaded data frame `df`: the input columns plus
the `cluster` column added at load time and the derived `province`
column. -/
def dfColumns : List String := inputColumns ++ ["cluster", "province"]

/-- A serialized CSV download: the header row and the exported records. -/
structure CsvExport where
  columns : List String
  rows : List Record
deriving DecidableEq, Repr

/-- Embedding of the download callback `download_filtered_data`: when
`n_clicks` is truthy it filters with the current criteria and serializes
`dff.to_csv` (all columns of `df`); a falsy `n_clicks` returns None. -/
def download_filtered_data (df : List Record) (n_clicks : Nat)
    (provinces_input : List String) (mag_range : Option (List Rat))
    (years : List Int) (start_year end_year : Option Int) :
    Except String (Option CsvExport) :=
  if n_clicks ≠ 0 then
    match filter_data df provinces_input mag_range years start_year end_year with
    | Except.error e => Except.error e
    | Except.ok (dff, _) => Except.ok (some ⟨dfColumns, dff⟩)
  else Except.ok none

/-! Concrete data for counterexamples and witnesses, modelled on the
dummy data frame the source constructs when `combined.csv` is missing:
five records dated 2023 - 2025 whose magnitudes span [3.5, 7.0]. -/

/-- Helper building a record from year, sub-year position, magnitude and
province (the other fields are irrelevant to the filter logic). -/
def mkRec (y : Int) (sub : Rat) (mag : Rat) (prov : String) : Record :=
  ⟨⟨y, sub⟩, none, none, 10, mag, "demo", -1, prov⟩

/-- The rational 11/2 = 5.5. -/
def r55 : Rat := ⟨11, 2, by decide, by decide⟩

/-- The rational 21/5 = 4.2. -/
def r42 : Rat := ⟨21, 5, by decide, by decide⟩

/-- The rational 61/10 = 6.1. -/
def r61 : Rat := ⟨61, 10, by decide, by decide⟩

/-- The rational 7/2 = 3.5. -/
def r35 : Rat := ⟨7, 2, by decide, by decide⟩

/-- A demonstration data set mirroring the source's dummy data: years
2025, 2025, 2024, 2023, 2025 and magnitudes 5.5, 4.2, 6.1, 7.0, 3.5. -/
def demoDf : List Record :=
  [mkRec 2025 1015 r55 "Jakarta",
   mkRec 2025 1016 r42 "Yogyakarta",
   mkRec 2024 520 r61 "Bali",
   mkRec 2023 101 7 "Lainnya",
   mkRec 2025 1014 r35 "Jawa Barat"]

/-- The provinces of `demoDf`, passed explicitly so the province filter
admits every record. -/
def demoProvs : List String :=
  ["Jakarta", "Yogyakarta", "Bali", "Lainnya", "Jawa Barat"]

/-- The records of `demoDf` sorted by time descending. -/
def demoSortedAll : List Record :=
  [mkRec 2025 1016 r42 "Yogyakarta",
   mkRec 2025 1015 r55 "Jakarta",
   mkRec 2025 1014 r35 "Jawa Barat",
   mkRec 2024 520 r61 "Bali",
   mkRec 2023 101 7 "Lainnya"]

/-- Discriminator for the outcome of `filter_data`. -/
def okFlag : Except String (List Record × List String) → Bool
  | Except.ok _ => true
  | Except.error _ => false

/-- Data with observed years 2021, 2023 and 2025, separating the default
window from a swapped explicit interval. -/
def d4Df : List Record :=
  [mkRec 2025 300 5 "Jakarta", mkRec 2023 200 5 "Jakarta",
   mkRec 2021 100 5 "Jakarta"]

/-- The province list of `d4Df`. -/
def d4Provs : List String := ["Jakarta"]

/-- Data on which "Bali" is the most frequent non-sentinel province. -/
def c6Df : List Record :=
  [mkRec 2025 1 5 "Jakarta", mkRec 2025 2 5 "Bali",
   mkRec 2024 3 5 "Bali", mkRec 2023 4 5 "Lainnya"]

/-- A constant distance function placing every query within the 150 km
threshold (0 km from every reference city). -/
def dist0 : Rat → Rat → Rat → Rat → Rat := fun _ _ _ _ => 0

/-- A constant distance function placing every query beyond the 150 km
threshold (1 radian, about 6371 km, from every reference city). -/
def dist1 : Rat → Rat → Rat → Rat → Rat := fun _ _ _ _ => 1

/-- A concrete reference city whose admin name carries the "Province"
suffix and surrounding whitespace. -/
def cW : RefCity := ⟨"Jakarta", "Indonesia", 0, 0, " Jakarta Province "⟩

/-- A one-record data set before province tagging. -/
def c7Base : List Record :=
  [⟨⟨2025, 1⟩, some 1, some 2, 10, 5, "demo", -1, "seed"⟩]

/-- The record of `c7Base` after tagging against `cW` with `dist0`. -/
def rW : Record :=
  ⟨⟨2025, 1⟩, some 1, some 2, 10, 5, "demo", -1,
   detect_province_fast dist0 cW [] (some 1) (some 2)⟩

/-- Records in descending-time relation: the second starts no later than
the first. -/
def recGe (a b : Record) : Prop := Timestamp.le b.time a.time = true

/-- C1 (counterexample). With the magnitude range absent, `filter_data`
on the demonstration data set evaluates to an error, not to the claimed
successful full-data result: the exception is propagated to the caller. -/
theorem filterData_error_counterexample :
    filter_data demoDf [] none [] none none =
      Except.error "TypeError: mag_range is None" ∧
    okFlag (filter_data demoDf [] none [] none none) = false :=
  ⟨rfl, rfl⟩

/-- C1 (amended). The body of `filter_data` contains no exception
handler: a failure while building the magnitude predicate (a missing
magnitude range, or one with fewer than two elements) is raised to the
caller rather than degraded to the full unfiltered data set. -/
theorem filterData_propagates_magRange_failure (df : List Record)
    (p : List String) (ys : List Int) (s e : Option Int) :
    filter_data df p none ys s e =
      Except.error "TypeError: mag_range is None" ∧
    filter_data df p (some []) ys s e =
      Except.error "IndexError: mag_range[0]" ∧
    ∀ x : Rat, filter_data df p (some [x]) ys s e =
      Except.error "IndexError: mag_range[1]" :=
  ⟨rfl, rfl, fun _ => rfl⟩

/-- C2 (counterexample). On data whose global magnitude range is
[3.5, 7.0], the request [10, 2] is not resolved to the clamped global
range: `between(10, 2)` admits nothing and the result is empty, whereas
the range [3.5, 7.0] the claim predicts admits every record. -/
theorem filterData_no_clamp_counterexample :
    min_mag_data demoDf = r35 ∧ max_mag_data demoDf = 7 ∧
    filter_data demoDf demoProvs (some [10, 2]) [] none none =
      Except.ok ([], demoProvs) ∧
    filter_data demoDf demoProvs (some [r35, 7]) [] none none =
      Except.ok (demoSortedAll, demoProvs) :=
  ⟨by decide, by decide, rfl, rfl⟩

/-- C2 (amended). The supplied magnitude bounds are applied verbatim,
with no defaulting, clamping or swapping: a missing range raises, and an
inverted pair [lo, hi] with hi < lo matches no record, so the filtered
result is empty rather than resolved to the global range. -/
theorem filterData_magnitude_bounds_verbatim (df : List Record)
    (p : List String) (lo hi : Rat) (rest : List Rat) (ys : List Int)
    (s e : Option Int) (hinv : hi < lo) :
    filter_data df p none ys s e =
      Except.error "TypeError: mag_range is None" ∧
    filter_data df p (some (lo :: hi :: rest)) ys s e =
      Except.ok ([], resolveProvinces df p) := by
  refine ⟨rfl, ?_⟩
  have hnil : df.filter (fun r =>
      (lo ≤ r.magnitude && r.magnitude ≤ hi)
      && yearFilter df ys s e r
      && (resolveProvinces df p).contains r.province) = [] := by
    rw [List.filter_eq_nil_iff]
    intro a _ h
    simp only [Bool.and_eq_true, decide_eq_true_eq] at h
    exact absurd (le_trans h.1.1.1 h.1.1.2) (not_le.mpr hinv)
  simp only [filter_data, hnil]
  rfl

/-- C2 (witness). The amended statement instantiated at the inverted
request [10, 2] on the demonstration data. -/
theorem filterData_magnitude_bounds_verbatim_witness :
    (2 : Rat) < 10 ∧
    filter_data demoDf demoProvs (some [10, 2]) [] none none =
      Except.ok ([], resolveProvinces demoDf demoProvs) :=
  ⟨by decide,
   (filterData_magnitude_bounds_verbatim demoDf demoProvs 10 2 [] [] none none
      (by decide)).2⟩

/-- C3 (counterexample). On data with observed years 2023 - 2025, the
explicit year set [1900] (disjoint from the data) yields an empty result;
it is not replaced by the default last-5-years window, which on the same
data yields every record. -/
theorem filterData_year_set_counterexample :
    filter_data demoDf demoProvs (some [0, 10]) [1900] none none =
      Except.ok ([], demoProvs) ∧
    max_year_data demoDf = 2025 ∧
    filter_data demoDf demoProvs (some [0, 10]) [] none none =
      Except.ok (demoSortedAll, demoProvs) :=
  ⟨rfl, by decide, rfl⟩

/-- C3 (amended). A non-empty explicit year set is applied verbatim as a
membership test (`isin`), with no intersection against the observed years
and no fallback: when the set is disjoint from the data's years the
result is empty rather than the default window. -/
theorem filterData_year_set_verbatim (df : List Record) (p : List String)
    (lo hi : Rat) (rest : List Rat) (ys : List Int) (s e : Option Int)
    (hne : ys ≠ []) :
    filter_data df p (some (lo :: hi :: rest)) ys s e =
      Except.ok (sortByTimeDesc (df.filter (fun r =>
        (lo ≤ r.magnitude && r.magnitude ≤ hi)
        && ys.contains r.time.year
        && (resolveProvinces df p).contains r.province)),
        resolveProvinces df p) ∧
    ((∀ r ∈ df, r.time.year ∉ ys) →
      filter_data df p (some (lo :: hi :: rest)) ys s e =
        Except.ok ([], resolveProvinces df p)) := by
  have hlen : ys.length > 0 := List.length_pos.mpr hne
  have hy : ∀ r : Record, yearFilter df ys s e r = ys.contains r.time.year := by
    intro r
    simp [yearFilter, hlen]
  have hfeq : df.filter (fun r =>
      (lo ≤ r.magnitude && r.magnitude ≤ hi)
      && yearFilter df ys s e r
      && (resolveProvinces df p).contains r.province) =
    df.filter (fun r =>
      (lo ≤ r.magnitude && r.magnitude ≤ hi)
      && ys.contains r.time.year
      && (resolveProvinces df p).contains r.province) :=
    List.filter_congr (fun a _ => by rw [hy a])
  refine ⟨by simp only [filter_data, hfeq], ?_⟩
  intro hdisj
  have hnil : df.filter (fun r =>
      (lo ≤ r.magnitude && r.magnitude ≤ hi)
      && yearFilter df ys s e r
      && (resolveProvinces df p).contains r.province) = [] := by
    rw [List.filter_eq_nil_iff]
    intro a ha h
    simp only [Bool.and_eq_true] at h
    have hmem : a.time.year ∈ ys := by
      have := h.1.2
      rw [hy a] at this
      simpa using this
    exact hdisj a ha hmem
  simp only [filter_data, hnil]
  rfl

/-- C3 (witness). The amended statement instantiated at the disjoint
year set [1900] on the demonstration data. -/
theorem filterData_year_set_verbatim_witness :
    filter_data demoDf demoProvs (some [0, 10]) [1900] none none =
      Except.ok ([], resolveProvinces demoDf demoProvs) :=
  (filterData_year_set_verbatim demoDf demoProvs 0 10 [] [1900] none none
    (by decide)).2 (by decide)

/-- C4 (counterexample). With observed years 2021 - 2025, the inverted
interval (2025, 2023) is not swapped and used: the result contains the
2021 record (the default window applies), while the swapped interval
[2023, 2025] the claim predicts excludes it. -/
theorem filterData_inverted_interval_counterexample :
    min_year_data d4Df = 2021 ∧ max_year_data d4Df = 2025 ∧
    filter_data d4Df d4Provs (some [0, 10]) [] (some 2025) (some 2023) =
      Except.ok ([mkRec 2025 300 5 "Jakarta", mkRec 2023 200 5 "Jakarta",
        mkRec 2021 100 5 "Jakarta"], d4Provs) ∧
    filter_data d4Df d4Provs (some [0, 10]) [] (some 2023) (some 2025) =
      Except.ok ([mkRec 2025 300 5 "Jakarta", mkRec 2023 200 5 "Jakarta"],
        d4Provs) :=
  ⟨by decide, by decide, rfl, rfl⟩

/-- C4 (amended). With no year set, an explicit (start, end) interval is
used exactly when `min_year_data ≤ start`, `end ≤ max_year_data` and
`start ≤ end`; an inverted interval is not auto-swapped but rejected, so
the call behaves as if no interval had been supplied (the default
last-5-years window applies). -/
theorem filterData_interval_validity (df : List Record) (p : List String)
    (lo hi : Rat) (rest : List Rat) (s e : Int) :
    (min_year_data df ≤ s → e ≤ max_year_data df → s ≤ e →
      filter_data df p (some (lo :: hi :: rest)) [] (some s) (some e) =
        Except.ok (sortByTimeDesc (df.filter (fun r =>
          (lo ≤ r.magnitude && r.magnitude ≤ hi)
          && (s ≤ r.time.year && r.time.year ≤ e)
          && (resolveProvinces df p).contains r.province)),
          resolveProvinces df p)) ∧
    (e < s →
      filter_data df p (some (lo :: hi :: rest)) [] (some s) (some e) =
        filter_data df p (some (lo :: hi :: rest)) [] none none) := by
  constructor
  · intro h1 h2 h3
    have hy : ∀ r : Record, yearFilter df [] (some s) (some e) r =
        (s ≤ r.time.year && r.time.year ≤ e) := by
      intro r
      simp [yearFilter, h1, h2, h3]
    have hfeq : df.filter (fun r =>
        (lo ≤ r.magnitude && r.magnitude ≤ hi)
        && yearFilter df [] (some s) (some e) r
        && (resolveProvinces df p).contains r.province) =
      df.filter (fun r =>
        (lo ≤ r.magnitude && r.magnitude ≤ hi)
        && (s ≤ r.time.year && r.time.year ≤ e)
        && (resolveProvinces df p).contains r.province) :=
      List.filter_congr (fun a _ => by rw [hy a])
    simp only [filter_data, hfeq]
  · intro hlt
    have hns : ¬ s ≤ e := not_le.mpr hlt
    have hy : ∀ r : Record, yearFilter df [] (some s) (some e) r =
        yearFilter df [] none none r := by
      intro r
      simp [yearFilter, hns]
    have hfeq : df.filter (fun r =>
        (lo ≤ r.magnitude && r.magnitude ≤ hi)
        && yearFilter df [] (some s) (some e) r
        && (resolveProvinces df p).contains r.province) =
      df.filter (fun r =>
        (lo ≤ r.magnitude && r.magnitude ≤ hi)
        && yearFilter df [] none none r
        && (resolveProvinces df p).contains r.province) :=
      List.filter_congr (fun a _ => by rw [hy a])
    simp only [filter_data, hfeq]

/-- C4 (witness). The amended statement instantiated on `d4Df`: the valid
interval (2023, 2025) is used, and the inverted interval (2025, 2023)
behaves as if no interval had been supplied. -/
theorem filterData_interval_validity_witness :
    filter_data d4Df d4Provs (some [0, 10]) [] (some 2023) (some 2025) =
      Except.ok (sortByTimeDesc (d4Df.filter (fun r =>
        ((0 : Rat) ≤ r.magnitude && r.magnitude ≤ (10 : Rat))
        && ((2023 : Int) ≤ r.time.year && r.time.year ≤ (2025 : Int))
        && (resolveProvinces d4Df d4Provs).contains r.province)),
        resolveProvinces d4Df d4Provs) ∧
    filter_data d4Df d4Provs (some [0, 10]) [] (some 2025) (some 2023) =
      filter_data d4Df d4Provs (some [0, 10]) [] none none :=
  ⟨(filterData_interval_validity d4Df d4Provs 0 10 [] 2023 2025).1
      (by decide) (by decide) (by decide),
   (filterData_interval_validity d4Df d4Provs 0 10 [] 2025 2023).2
      (by decide)⟩

/-- Membership in the fold underlying `uniqueList`. -/
theorem mem_uniqueList_aux (l : List String) (acc : List String) (x : String) :
    (x ∈ l.foldl (fun acc y => if y ∈ acc then acc else acc ++ [y]) acc) ↔
      x ∈ acc ∨ x ∈ l := by
  induction l generalizing acc with
  | nil => simp
  | cons a as ih =>
    simp only [List.foldl_cons]
    rw [ih]
    by_cases h : a ∈ acc
    · rw [if_pos h]
      simp only [List.mem_cons]
      constructor
      · rintro (hx | hx)
        · exact Or.inl hx
        · exact Or.inr (Or.inr hx)
      · rintro (hx | hx | hx)
        · exact Or.inl hx
        · exact Or.inl (hx ▸ h)
        · exact Or.inr hx
    · rw [if_neg h]
      simp only [List.mem_append, List.mem_singleton, List.mem_cons]
      tauto

/-- Membership in `uniqueList` is membership in the original list. -/
theorem mem_uniqueList (l : List String) (x : String) :
    x ∈ uniqueList l ↔ x ∈ l := by
  rw [uniqueList, mem_uniqueList_aux]
  simp

/-- A province has a positive count exactly when some record carries it. -/
theorem countProv_pos (df : List Record) (q : String) :
    0 < countProv df q ↔ ∃ r ∈ df, r.province = q := by
  rw [countProv, List.length_pos, Ne, List.filter_eq_nil_iff]
  push_neg
  simp

/-- The scan of `argmaxCount` stays inside the candidate pool. -/
theorem argmaxCount_mem (df : List Record) (l : List String) (b : String) :
    argmaxCount df l b ∈ b :: l := by
  induction l generalizing b with
  | nil => simp [argmaxCount]
  | cons p rest ih =>
    simp only [argmaxCount]
    have h := ih (b := if countProv df b < countProv df p then p else b)
    rcases List.mem_cons.mp h with h1 | h1
    · rw [h1]
      split
      · exact List.mem_cons_of_mem _ (List.mem_cons_self _ _)
      · exact List.mem_cons_self _ _
    · exact List.mem_cons_of_mem _ (List.mem_cons_of_mem _ h1)

/-- The scan of `argmaxCount` dominates every candidate's count. -/
theorem argmaxCount_le (df : List Record) (l : List String) (b : String) :
    ∀ q ∈ b :: l, countProv df q ≤ countProv df (argmaxCount df l b) := by
  induction l generalizing b with
  | nil =>
    intro q hq
    rw [List.mem_singleton.mp hq]
    exact le_refl _
  | cons p rest ih =>
    intro q hq
    have hb : countProv df b ≤
        countProv df (if countProv df b < countProv df p then p else b) := by
      split
      · exact le_of_lt ‹_›
      · exact le_refl _
    have hp : countProv df p ≤
        countProv df (if countProv df b < countProv df p then p else b) := by
      split
      · exact le_refl _
      · exact not_lt.mp ‹_›
    rcases List.mem_cons.mp hq with rfl | hq'
    · exact le_trans hb (ih _ _ (List.mem_cons_self _ _))
    · rcases List.mem_cons.mp hq' with rfl | hq''
      · exact le_trans hp (ih _ _ (List.mem_cons_self _ _))
      · exact ih _ _ (List.mem_cons_of_mem _ hq'')

/-- Characterisation of `valid_provinces`: the non-sentinel provinces
that occur in the data. -/
theorem mem_valid_provinces (df : List Record) (q : String) :
    q ∈ valid_provinces df ↔ q ≠ sentinel ∧ ∃ r ∈ df, r.province = q := by
  rw [valid_provinces, mem_uniqueList]
  simp only [List.mem_map, List.mem_filter, decide_eq_true_eq]
  constructor
  · rintro ⟨r, ⟨hr, hne⟩, rfl⟩
    exact ⟨hne, r, hr, rfl⟩
  · rintro ⟨hne, r, hr, rfl⟩
    exact ⟨r, ⟨hr, hne⟩, rfl⟩

/-- The nearest-city scan stays inside the reference set. -/
theorem nearestCity_mem (dist : Rat → Rat → Rat → Rat → Rat)
    (la lo : Rat) (c : RefCity) (cs : List RefCity) :
    nearestCity dist la lo c cs ∈ c :: cs := by
  induction cs generalizing c with
  | nil => simp [nearestCity]
  | cons x xs ih =>
    have h := ih (c := if dist la lo x.lat x.lng < dist la lo c.lat c.lng
      then x else c)
    rcases List.mem_cons.mp h with h1 | h1
    · show nearestCity dist la lo
        (if dist la lo x.lat x.lng < dist la lo c.lat c.lng then x else c) xs
          ∈ c :: x :: xs
      rw [h1]
      split
      · exact List.mem_cons_of_mem _ (List.mem_cons_self _ _)
      · exact List.mem_cons_self _ _
    · exact List.mem_cons_of_mem _ (List.mem_cons_of_mem _ h1)

/-- The nearest-city scan minimises the distance over the reference
set. -/
theorem nearestCity_min (dist : Rat → Rat → Rat → Rat → Rat)
    (la lo : Rat) (c : RefCity) (cs : List RefCity) :
    ∀ x ∈ c :: cs,
      dist la lo (nearestCity dist la lo c cs).lat
        (nearestCity dist la lo c cs).lng ≤ dist la lo x.lat x.lng := by
  induction cs generalizing c with
  | nil =>
    intro x hx
    rw [List.mem_singleton.mp hx]
    exact le_refl _
  | cons y ys ih =>
    intro x hx
    have hinit_c : dist la lo
        (if dist la lo y.lat y.lng < dist la lo c.lat c.lng then y else c).lat
        (if dist la lo y.lat y.lng < dist la lo c.lat c.lng then y else c).lng ≤
          dist la lo c.lat c.lng := by
      split
      · exact le_of_lt ‹_›
      · exact le_refl _
    have hinit_y : dist la lo
        (if dist la lo y.lat y.lng < dist la lo c.lat c.lng then y else c).lat
        (if dist la lo y.lat y.lng < dist la lo c.lat c.lng then y else c).lng ≤
          dist la lo y.lat y.lng := by
      split
      · exact le_refl _
      · exact not_lt.mp ‹_›
    have hnear := ih (c := if dist la lo y.lat y.lng < dist la lo c.lat c.lng
      then y else c) _ (List.mem_cons_self _ _)
    rcases List.mem_cons.mp hx with rfl | hx'
    · exact le_trans hnear hinit_c
    · rcases List.mem_cons.mp hx' with rfl | hx''
      · exact le_trans hnear hinit_y
      · exact ih _ _ (List.mem_cons_of_mem _ hx'')

/-- Totality of the timestamp order. -/
theorem timestampLe_total (a b : Timestamp) :
    Timestamp.le a b = true ∨ Timestamp.le b a = true := by
  simp only [Timestamp.le, Bool.or_eq_true, Bool.and_eq_true,
    decide_eq_true_eq]
  rcases lt_trichotomy a.year b.year with h | h | h
  · exact Or.inl (Or.inl h)
  · rcases le_total a.sub b.sub with hs | hs
    · exact Or.inl (Or.inr ⟨h, hs⟩)
    · exact Or.inr (Or.inr ⟨h.symm, hs⟩)
  · exact Or.inr (Or.inl h)

/-- Transitivity of the timestamp order. -/
theorem timestampLe_trans {a b c : Timestamp} (h1 : Timestamp.le a b = true)
    (h2 : Timestamp.le b c = true) : Timestamp.le a c = true := by
  simp only [Timestamp.le, Bool.or_eq_true, Bool.and_eq_true,
    decide_eq_true_eq] at h1 h2 ⊢
  rcases h1 with h1 | ⟨he1, hs1⟩ <;> rcases h2 with h2 | ⟨he2, hs2⟩
  · exact Or.inl (lt_trans h1 h2)
  · exact Or.inl (he2 ▸ h1)
  · exact Or.inl (he1 ▸ h2)
  · exact Or.inr ⟨he1.trans he2, le_trans hs1 hs2⟩

/-- Membership after insertion. -/
theorem mem_insertDesc (r : Record) (l : List Record) (b : Record) :
    b ∈ insertDesc r l ↔ b = r ∨ b ∈ l := by
  induction l with
  | nil => simp [insertDesc]
  | cons x xs ih =>
    simp only [insertDesc]
    split
    · simp [List.mem_cons]
    · simp only [List.mem_cons, ih]
      tauto

/-- Insertion preserves the descending pairwise invariant. -/
theorem pairwise_insertDesc (r : Record) (l : List Record)
    (h : l.Pairwise recGe) : (insertDesc r l).Pairwise recGe := by
  induction l with
  | nil => simp [insertDesc]
  | cons x xs ih =>
    simp only [insertDesc]
    split
    · rename_i hle
      refine List.Pairwise.cons ?_ h
      intro b hb
      rcases List.mem_cons.mp hb with rfl | hb'
      · exact hle
      · exact timestampLe_trans (List.rel_of_pairwise_cons h hb') hle
    · rename_i hnle
      refine List.Pairwise.cons ?_ (ih (List.Pairwise.of_cons h))
      intro b hb
      rcases (mem_insertDesc r xs b).mp hb with rfl | hb'
      · rcases timestampLe_total x.time b.time with hx | hx
        · exact absurd hx hnle
        · exact hx
      · exact List.rel_of_pairwise_cons h hb'

/-- The sort used by `filter_data` is pairwise descending in time. -/
theorem sortByTimeDesc_pairwise (l : List Record) :
    (sortByTimeDesc l).Pairwise recGe := by
  induction l with
  | nil => simp [sortByTimeDesc]
  | cons r rs ih => exact pairwise_insertDesc r _ ih

/-- C5. The classifier returns the sentinel on missing/NaN input without
any lookup; otherwise it looks up the nearest reference city (the
distance-minimising one) and returns that city's province label when the
distance is below the threshold (`dist * 6371 < 150`), the sentinel when
the nearest city is beyond it.  The sentinel (the spec's "Other") is the
literal "Lainnya". -/
theorem detectProvince_contract (dist : Rat → Rat → Rat → Rat → Rat)
    (c : RefCity) (cs : List RefCity) (lat lon : Option Rat) :
    ((lat = none ∨ lon = none) →
      detect_province_fast dist c cs lat lon = sentinel) ∧
    (∀ la lo, lat = some la → lon = some lo →
      (nearestCity dist la lo c cs ∈ c :: cs ∧
        ∀ x ∈ c :: cs,
          dist la lo (nearestCity dist la lo c cs).lat
            (nearestCity dist la lo c cs).lng ≤ dist la lo x.lat x.lng) ∧
      (dist la lo (nearestCity dist la lo c cs).lat
          (nearestCity dist la lo c cs).lng * 6371 < 150 →
        detect_province_fast dist c cs lat lon =
          provinceLabel (nearestCity dist la lo c cs)) ∧
      (¬ dist la lo (nearestCity dist la lo c cs).lat
          (nearestCity dist la lo c cs).lng * 6371 < 150 →
        detect_province_fast dist c cs lat lon = sentinel)) := by
  constructor
  · rintro (rfl | rfl)
    · rfl
    · cases lat <;> rfl
  · rintro la lo rfl rfl
    refine ⟨⟨nearestCity_mem dist la lo c cs, nearestCity_min dist la lo c cs⟩,
      ?_, ?_⟩
    · intro h
      simp [detect_province_fast, h]
    · intro h
      simp [detect_province_fast, h]

/-- C5 (witness). The contract instantiated at a concrete city with a
within-threshold distance function, a beyond-threshold one, and missing
input. -/
theorem detectProvince_contract_witness :
    detect_province_fast dist0 cW [] none (some 1) = sentinel ∧
    detect_province_fast dist0 cW [] (some 1) (some 2) = provinceLabel cW ∧
    detect_province_fast dist1 cW [] (some 1) (some 2) = sentinel :=
  ⟨(detectProvince_contract dist0 cW [] none (some 1)).1 (Or.inl rfl),
   ((detectProvince_contract dist0 cW [] (some 1) (some 2)).2 1 2 rfl rfl).2.1
     (by
       show (0 : Rat) * 6371 < 150
       rw [zero_mul]
       decide),
   ((detectProvince_contract dist1 cW [] (some 1) (some 2)).2 1 2 rfl rfl).2.2
     (by
       show ¬ (1 : Rat) * 6371 < 150
       rw [one_mul]
       decide)⟩

/-- C6. With an empty province selection, `filter_data` resolves the
provinces to the singleton of the most frequent non-sentinel province
when one occurs in the data (that province occurs, is not the sentinel,
and its count dominates every non-sentinel province's count), and to the
full distinct province list otherwise. -/
theorem filterData_province_default (df : List Record) (lo hi : Rat)
    (rest : List Rat) (ys : List Int) (s e : Option Int) :
    (∃ rows, filter_data df [] (some (lo :: hi :: rest)) ys s e =
      Except.ok (rows, resolveProvinces df [])) ∧
    ((∃ r ∈ df, r.province ≠ sentinel) →
      resolveProvinces df [] = [top_province df] ∧
      top_province df ≠ sentinel ∧
      (∃ r ∈ df, r.province = top_province df) ∧
      ∀ q, q ≠ sentinel →
        countProv df q ≤ countProv df (top_province df)) ∧
    ((∀ r ∈ df, r.province = sentinel) →
      resolveProvinces df [] = uniqueList (df.map (fun r => r.province))) := by
  refine ⟨⟨_, rfl⟩, ?_, ?_⟩
  · rintro ⟨r, hr, hne⟩
    have hval : valid_provinces df ≠ [] := by
      intro hnil
      have : r.province ∈ valid_provinces df :=
        (mem_valid_provinces df r.province).mpr ⟨hne, r, hr, rfl⟩
      rw [hnil] at this
      exact absurd this (List.not_mem_nil _)
    obtain ⟨p, rest', heq⟩ := List.exists_cons_of_ne_nil hval
    have htop : top_province df = argmaxCount df rest' p := by
      rw [top_province, heq]
    have htopmem : top_province df ∈ valid_provinces df := by
      rw [htop, heq]
      exact argmaxCount_mem df rest' p
    obtain ⟨htopne, htopocc⟩ := (mem_valid_provinces df _).mp htopmem
    refine ⟨by simp [resolveProvinces, htopne], htopne, htopocc, ?_⟩
    intro q hq
    rcases Nat.eq_zero_or_pos (countProv df q) with h0 | h0
    · rw [h0]
      exact Nat.zero_le _
    · have hqmem : q ∈ valid_provinces df :=
        (mem_valid_provinces df q).mpr ⟨hq, (countProv_pos df q).mp h0⟩
      rw [htop]
      apply argmaxCount_le df rest' p
      rw [← heq]
      exact hqmem
  · intro hall
    have hval : valid_provinces df = [] := by
      rw [valid_provinces]
      have : df.filter (fun r => r.province ≠ sentinel) = [] := by
        rw [List.filter_eq_nil_iff]
        intro a ha
        simp [hall a ha]
      rw [this]
      rfl
    have htop : top_province df = sentinel := by
      rw [top_province, hval]
    simp [resolveProvinces, htop]

/-- C6 (witness). On `c6Df` the most frequent non-sentinel province is
"Bali" and an empty selection resolves to it. -/
theorem filterData_province_default_witness :
    resolveProvinces c6Df [] = ["Bali"] ∧
    countProv c6Df "Jakarta" ≤ countProv c6Df "Bali" :=
  ⟨((filterData_province_default c6Df 0 10 [] [] none none).2.1
      ⟨mkRec 2025 1 5 "Jakarta", by decide, by decide⟩).1,
   ((filterData_province_default c6Df 0 10 [] [] none none).2.1
      ⟨mkRec 2025 1 5 "Jakarta", by decide, by decide⟩).2.2.2 "Jakarta"
      (by decide)⟩

/-- C7 (counterexample). The out-of-range coordinate pair
(lat -91, lon 100) is not mapped to the sentinel by the degraded
classifier: it is labelled "Sumatera/Jawa Barat". -/
theorem fallback_out_of_range_counterexample :
    detect_province_fast_fallback (some (-91)) (some 100) =
      "Sumatera/Jawa Barat" ∧
    (-91 : Rat) < -90 ∧
    decide ("Sumatera/Jawa Barat" = sentinel) = false :=
  ⟨rfl, by decide, by decide⟩

/-- C7 (amended). Every record tagged by the primary classifier carries
either the sentinel or the label of some reference city, and both
classifiers are total — defined for every lat/lon input, including
missing and out-of-range coordinates (the fallback always lands in its
three-label range) — but an out-of-range coordinate need not map to the
sentinel: the fallback labels (lat -91, lon 100) as
"Sumatera/Jawa Barat". -/
theorem province_invariant_total (dist : Rat → Rat → Rat → Rat → Rat)
    (c : RefCity) (cs : List RefCity) (df : List Record) :
    (∀ r ∈ tagRecords dist c cs df,
      r.province = sentinel ∨ ∃ x ∈ c :: cs, r.province = provinceLabel x) ∧
    (∀ lat lon : Option Rat,
      detect_province_fast_fallback lat lon = "Sumatera/Jawa Barat" ∨
      detect_province_fast_fallback lat lon = "Sulawesi/Maluku" ∨
      detect_province_fast_fallback lat lon = sentinel) ∧
    detect_province_fast_fallback (some (-91)) (some 100) =
      "Sumatera/Jawa Barat" := by
  refine ⟨?_, ?_, rfl⟩
  · intro r hr
    rcases List.mem_map.mp hr with ⟨a, _, rfl⟩
    show detect_province_fast dist c cs a.latitude a.longitude = sentinel ∨ _
    cases hla : a.latitude with
    | none => exact Or.inl (by cases a.longitude <;> rfl)
    | some la =>
      cases hlo : a.longitude with
      | none => exact Or.inl rfl
      | some lo =>
        by_cases h : dist la lo (nearestCity dist la lo c cs).lat
            (nearestCity dist la lo c cs).lng * 6371 < 150
        · refine Or.inr ⟨nearestCity dist la lo c cs,
            nearestCity_mem dist la lo c cs, ?_⟩
          simp [detect_province_fast, h]
        · exact Or.inl (by simp [detect_province_fast, h])
  · intro lat lon
    rw [detect_province_fast_fallback]
    split
    · exact Or.inl rfl
    · split
      · exact Or.inr (Or.inl rfl)
      · exact Or.inr (Or.inr rfl)

/-- C7 (witness). The invariant instantiated at the tagged one-record
data set `c7Base`. -/
theorem province_invariant_total_witness :
    rW.province = sentinel ∨
      ∃ x ∈ cW :: ([] : List RefCity), rW.province = provinceLabel x :=
  (province_invariant_total dist0 cW [] c7Base).1 rW
    (List.mem_singleton.mpr rfl)

/-- C9 (counterexample). The batch export on the demonstration data
serializes the data frame's full column set — the input columns plus the
derived `cluster` and `province` columns — not the input column set the
claim states. -/
theorem download_columns_counterexample :
    download_filtered_data demoDf 1 demoProvs (some [0, 10]) [] none none =
      Except.ok (some ⟨dfColumns, demoSortedAll⟩) ∧
    dfColumns = inputColumns ++ ["cluster", "province"] ∧
    decide (dfColumns = inputColumns) = false :=
  ⟨rfl, rfl, by decide⟩

/-- C9 (amended). For every filter criteria input, a clicked download
serializes exactly the rows produced by `filter_data` (which are pairwise
sorted by time descending), with the loaded frame's column set: the input
columns {time, latitude, longitude, depth, magnitude, place} extended by
the derived `cluster` and `province` columns; an unclicked download
produces nothing. -/
theorem download_export_columns_sorted (df : List Record) (n : Nat)
    (p : List String) (mr : Option (List Rat)) (ys : List Int)
    (s e : Option Int) (rows : List Record) (provs : List String)
    (hn : n ≠ 0)
    (hok : filter_data df p mr ys s e = Except.ok (rows, provs)) :
    download_filtered_data df n p mr ys s e =
      Except.ok (some ⟨inputColumns ++ ["cluster", "province"], rows⟩) ∧
    rows.Pairwise recGe ∧
    download_filtered_data df 0 p mr ys s e = Except.ok none := by
  refine ⟨?_, ?_, rfl⟩
  · simp [download_filtered_data, hn, hok, dfColumns]
  · rcases mr with _ | mrl
    · exact absurd hok (by simp [filter_data])
    · rcases mrl with _ | ⟨lo, mrl2⟩
      · exact absurd hok (by simp [filter_data])
      · rcases mrl2 with _ | ⟨hi, rest⟩
        · exact absurd hok (by simp [filter_data])
        · have h2 := hok
          simp only [filter_data, Except.ok.injEq, Prod.mk.injEq] at h2
          rw [← h2.1]
          exact sortByTimeDesc_pairwise _

/-- C9 (witness). The amended statement instantiated on the
demonstration data with one click. -/
theorem download_export_columns_sorted_witness :
    download_filtered_data demoDf 1 demoProvs (some [0, 10]) [] none none =
      Except.ok (some ⟨inputColumns ++ ["cluster", "province"],
        demoSortedAll⟩) ∧
    demoSortedAll.Pairwise recGe :=
  have h := download_export_columns_sorted demoDf 1 demoProvs (some [0, 10])
    [] none none demoSortedAll demoProvs (by decide) rfl
  ⟨h.1, h.2.1⟩

/-- C10. When the nearest reference city is within the threshold, the
label returned is the city's raw admin name with every occurrence of the
substring "Province" removed and surrounding whitespace stripped; for all
other inputs (beyond threshold, or a missing coordinate) the value
produced is the literal string "Lainnya". -/
theorem detectProvince_label_literal (dist : Rat → Rat → Rat → Rat → Rat)
    (c : RefCity) (cs : List RefCity) (la lo : Rat) :
    (dist la lo (nearestCity dist la lo c cs).lat
        (nearestCity dist la lo c cs).lng * 6371 < 150 →
      detect_province_fast dist c cs (some la) (some lo) =
        pyStrip (pyReplace (nearestCity dist la lo c cs).admin_name
          "Province" "")) ∧
    (¬ dist la lo (nearestCity dist la lo c cs).lat
        (nearestCity dist la lo c cs).lng * 6371 < 150 →
      detect_province_fast dist c cs (some la) (some lo) = "Lainnya") ∧
    (∀ lat : Option Rat,
      detect_province_fast dist c cs lat none = "Lainnya") ∧
    (∀ lon : Option Rat,
      detect_province_fast dist c cs none lon = "Lainnya") := by
  refine ⟨?_, ?_, ?_, fun _ => rfl⟩
  · intro h
    simp [detect_province_fast, provinceLabel, h]
  · intro h
    simp [detect_province_fast, sentinel, h]
  · intro lat
    cases lat <;> rfl

/-- C10 (witness). At the concrete city with admin name
" Jakarta Province ", the within-threshold label evaluates to "Jakarta"
and the beyond-threshold value to "Lainnya". -/
theorem detectProvince_label_literal_witness :
    detect_province_fast dist0 cW [] (some 1) (some 2) =
      pyStrip (pyReplace " Jakarta Province " "Province" "") ∧
    detect_province_fast dist0 cW [] (some 1) (some 2) = "Jakarta" ∧
    detect_province_fast dist1 cW [] (some 1) (some 2) = "Lainnya" :=
  have hin : detect_province_fast dist0 cW [] (some 1) (some 2) =
      pyStrip (pyReplace " Jakarta Province " "Province" "") :=
    (detectProvince_label_literal dist0 cW [] 1 2).1
      (by
        show (0 : Rat) * 6371 < 150
        rw [zero_mul]
        decide)
  ⟨hin, hin.trans (by decide),
   (detectProvince_label_literal dist1 cW [] 1 2).2.1
     (by
       show ¬ (1 : Rat) * 6371 < 150
       rw [one_mul]
       decide)⟩

end Seismie
